import Mathlib

/-!
# Scout Analytics — verification of the SQL analytics pipeline

Shallow embedding of the analytics layer of the Scout Analytics PostgreSQL
schema (migrations `002_create_stored_procedures.sql`,
`003_enhanced_security_rls.sql`, `005_monitoring_analytics_views.sql`):
the materialized views (`daily_sales`, `product_performance`,
`regional_performance`, `brand_competition_dashboard`), the
`customer_segments` view, the `refresh_analytics` and
`detect_sales_anomalies` procedures, and the row-level-security policy
for store managers together with the store-access grant/revoke functions.

Modelling conventions:
* `NUMERIC` values are rationals (`ℚ`); timestamps are modelled by their
  calendar day as an integer (`ℤ`), with the hour-of-day kept as a separate
  field where the SQL extracts it.
* SQL inner joins on primary keys are `List.find?` lookups (each key is
  expected to occur once in its table); `LEFT JOIN` keeps a row with `none`
  on the right when no match exists.
* `NULL`-producing expressions (`NULLIF`, aggregates over too few rows)
  are `Option`; an expression that raises a runtime error (division by
  zero with no guard) is `Except String`.
* PostgreSQL `STDDEV` is the *sample* standard deviation and is `NULL`
  for fewer than two rows.  Since `Real.sqrt` is not computable, the
  executable definitions compare *squares* of deviations against the
  variance; the lemmas `gt_mul_sqrt_iff` and `abs_gt_mul_sqrt_iff` prove
  this equivalent to the source's comparison against `k * STDDEV`.
-/

namespace Scout

/-! ## Data model (tables `stores`, `brands`, `products`,
`transaction_items`, `sales_interactions`) -/

/-- A row of `stores`. -/
structure Store where
  id : ℕ
  region : String
  name : String
deriving DecidableEq

/-- A row of `brands`. -/
structure Brand where
  id : ℕ
  name : String
  category : String
deriving DecidableEq

/-- A row of `products`. -/
structure Product where
  id : ℕ
  name : String
  brandId : ℕ
  category : String
  unitPrice : ℚ
  isFmcg : Bool
deriving DecidableEq

/-- A row of `transaction_items`. -/
structure Item where
  interactionId : ℕ
  productId : ℕ
  quantity : ℚ
deriving DecidableEq

/-- A row of `sales_interactions`.  `date` is the calendar day of
`transaction_date`, `hour` is `EXTRACT(HOUR FROM transaction_date)`. -/
structure Interaction where
  interactionId : ℕ
  storeId : ℕ
  customerId : Option ℕ
  date : ℤ
  hour : ℕ
  amount : ℚ
  influenced : Bool
  substituted : Bool
deriving DecidableEq

/-- The database state: the five tables the analytics layer reads. -/
structure DB where
  stores : List Store
  brands : List Brand
  products : List Product
  items : List Item
  interactions : List Interaction

/-- `EXTRACT(DOW FROM transaction_date)`: the day of week is determined by
the calendar day (modelled as the day number mod 7). -/
def dow (d : ℤ) : ℤ := d % 7

/-! ## `daily_sales` materialized view (003, lines 552-572)

```sql
SELECT DATE(transaction_date), store_id, s.region, s.name,
       COUNT(*), SUM(total_amount), AVG(total_amount),
       SUM(CASE WHEN is_attendant_influenced THEN 1 ELSE 0 END),
       SUM(CASE WHEN substitution_occurred THEN 1 ELSE 0 END),
       EXTRACT(DOW FROM transaction_date), EXTRACT(HOUR FROM transaction_date)
FROM sales_interactions si JOIN stores s ON si.store_id = s.id
WHERE transaction_date >= CURRENT_DATE - INTERVAL '90 days'
GROUP BY 1, 2, 3, 4, 9, 10;
```
-/

/-- The `GROUP BY` key of `daily_sales`: columns 1,2,3,4,9,10. -/
structure DailyKey where
  saleDate : ℤ
  storeId : ℕ
  region : String
  storeName : String
  dayOfWeek : ℤ
  peakHour : ℕ
deriving DecidableEq

/-- A row of the `daily_sales` materialized view (aggregates per key). -/
structure DailyRow where
  key : DailyKey
  transactionCount : ℕ
  dailyRevenue : ℚ
  avgTransactionValue : ℚ
  influencedTransactions : ℕ
  substitutionTransactions : ℕ
deriving DecidableEq

/-- The 90-day windowed join `sales_interactions JOIN stores`: every pair
of rows whose join condition `si.store_id = s.id` holds. -/
def dailySalesRows (db : DB) (today : ℤ) : List (Interaction × Store) :=
  (db.interactions.filter (fun si => today - 90 ≤ si.date)).flatMap
    (fun si => (db.stores.filter (fun s => s.id = si.storeId)).map (fun s => (si, s)))

/-- The grouping key of one joined row. -/
def dailyKeyOf (r : Interaction × Store) : DailyKey :=
  ⟨r.1.date, r.1.storeId, r.2.region, r.2.name, dow r.1.date, r.1.hour⟩

/-- The `daily_sales` materialized view: one row per distinct grouping key,
in first-occurrence order. -/
def daily_sales (db : DB) (today : ℤ) : List DailyRow :=
  let rows := dailySalesRows db today
  ((rows.map dailyKeyOf).dedup).map (fun k =>
    let g := rows.filter (fun r => dailyKeyOf r = k)
    { key := k
      transactionCount := g.length
      dailyRevenue := (g.map (fun r => r.1.amount)).sum
      avgTransactionValue := (g.map (fun r => r.1.amount)).sum / g.length
      influencedTransactions := (g.filter (fun r => r.1.influenced)).length
      substitutionTransactions := (g.filter (fun r => r.1.substituted)).length })

/-- The (date, store, day-of-week, hour) part of a `daily_sales` row's key,
matching the view's unique index `idx_daily_sales_unique`. -/
def dailyIndexKey (r : DailyRow) : ℤ × ℕ × ℤ × ℕ :=
  (r.key.saleDate, r.key.storeId, r.key.dayOfWeek, r.key.peakHour)

/-- Every grouping key occurring in the view carries the columns of some
`stores` row matching its `store_id`, and its day-of-week is determined by
its date. -/
lemma dailyKey_determined (db : DB) (today : ℤ) (k : DailyKey)
    (hk : k ∈ (dailySalesRows db today).map dailyKeyOf) :
    ∃ s ∈ db.stores, s.id = k.storeId ∧
      k.region = s.region ∧ k.storeName = s.name ∧ k.dayOfWeek = dow k.saleDate := by
  rcases List.mem_map.mp hk with ⟨r, hr, hkey⟩
  rcases List.mem_flatMap.mp hr with ⟨si, _, hmem⟩
  rcases List.mem_map.mp hmem with ⟨s, hs, hrs⟩
  have hsid : s.id = si.storeId := by
    have := List.of_mem_filter hs
    exact of_decide_eq_true this
  subst hrs
  subst hkey
  exact ⟨s, List.mem_of_mem_filter hs, hsid, rfl, rfl, rfl⟩

/-- Concrete store/transaction data for the `daily_sales` scenario: one
store, three transactions on the same day at 09:00, 09:30 and 14:00 with
totals 100, 150 and 200. -/
def db9 : DB :=
  { stores := [⟨1, "R", "S1"⟩]
    brands := []
    products := []
    items := []
    interactions :=
      [⟨1, 1, none, 0, 9, 100, false, false⟩,
       ⟨2, 1, none, 0, 9, 150, false, false⟩,
       ⟨3, 1, none, 0, 14, 200, false, false⟩] }

/-- C9: provided store ids are unique (the `stores` primary key), the
`daily_sales` rollup keys rows by (calendar date, store, day-of-week, hour)
and that key is unique per row; on the concrete data of `db9` (three
transactions at 09:00, 09:30, 14:00 with totals 100, 150, 200), the hour-9
row has count 2 and revenue 250 and the hour-14 row has count 1 and
revenue 200. -/
theorem daily_sales_key_unique_and_example :
    (∀ (db : DB) (today : ℤ), (db.stores.map Store.id).Nodup →
      ((daily_sales db today).map dailyIndexKey).Nodup) ∧
    daily_sales db9 0 =
      [⟨⟨0, 1, "R", "S1", 0, 9⟩, 2, 250, 125, 0, 0⟩,
       ⟨⟨0, 1, "R", "S1", 0, 14⟩, 1, 200, 200, 0, 0⟩] := by
  constructor
  · intro db today hids
    unfold daily_sales
    rw [List.map_map]
    refine List.Nodup.map_on ?_
      (List.nodup_dedup ((dailySalesRows db today).map dailyKeyOf))
    intro k1 hk1 k2 hk2 heq
    have hdate : k1.saleDate = k2.saleDate := congrArg (fun p => p.1) heq
    have hstore : k1.storeId = k2.storeId := congrArg (fun p => p.2.1) heq
    have hdw : k1.dayOfWeek = k2.dayOfWeek := congrArg (fun p => p.2.2.1) heq
    have hhour : k1.peakHour = k2.peakHour := congrArg (fun p => p.2.2.2) heq
    rcases dailyKey_determined db today k1 (List.mem_dedup.mp hk1) with
      ⟨s1, hs1, hid1, hr1, hn1, _⟩
    rcases dailyKey_determined db today k2 (List.mem_dedup.mp hk2) with
      ⟨s2, hs2, hid2, hr2, hn2, _⟩
    have hs12 : s1 = s2 :=
      List.inj_on_of_nodup_map hids hs1 hs2 (by rw [hid1, hid2, hstore])
    cases k1
    cases k2
    simp only at hdate hstore hdw hhour hr1 hr2 hn1 hn2
    subst hdate hstore hdw hhour
    simp [hr1, hr2, hn1, hn2, hs12]
  · norm_num [daily_sales, dailySalesRows, dailyKeyOf, db9, dow,
      List.dedup_cons_of_mem, List.dedup_cons_of_not_mem]

/-- Witness for the universally quantified part of C9: the concrete
database `db9` has unique store ids, hence unique rollup keys. -/
theorem daily_sales_key_unique_witness :
    (db9.stores.map Store.id).Nodup ∧ ((daily_sales db9 0).map dailyIndexKey).Nodup :=
  ⟨by decide, daily_sales_key_unique_and_example.1 db9 0 (by decide)⟩

/-! ## Row-level security for store managers (003, lines 151-161 and
207-215) and the store-access management functions (003, lines 311-404)

```sql
CREATE POLICY "sales_interactions_store_manager" ON sales_interactions
    FOR SELECT TO store_manager
    USING (
        store_id IN (
            SELECT store_id FROM user_store_access
            WHERE user_id = current_setting('app.user_id')::UUID
        )
        AND transaction_date >= CURRENT_DATE - INTERVAL '30 days'
    );
CREATE POLICY "stores_manager_access" ON stores
    FOR SELECT TO store_manager
    USING (
        id IN (
            SELECT store_id FROM user_store_access
            WHERE user_id = current_setting('app.user_id')::UUID
        )
    );
```
-/

/-- A row of `user_store_access`. -/
structure AccessRow where
  userId : ℕ
  storeId : ℕ
  accessLevel : String
  expiresAt : Option ℤ
  isActive : Bool
deriving DecidableEq

/-- The subquery `SELECT store_id FROM user_store_access WHERE user_id =
current_setting('app.user_id')::UUID`, as the membership test `store_id IN
(...)`.  Note the subquery filters on `user_id` only. -/
def grantedStoreIds (access : List AccessRow) (uid : ℕ) (storeId : ℕ) : Bool :=
  access.any (fun a => a.userId = uid && a.storeId = storeId)

/-- The `USING` predicate of policy `sales_interactions_store_manager`:
whether the store-manager role with user id `uid` can read the
`sales_interactions` row `si`. -/
def sales_interactions_store_manager (access : List AccessRow) (uid : ℕ)
    (si : Interaction) (today : ℤ) : Bool :=
  grantedStoreIds access uid si.storeId && decide (today - 30 ≤ si.date)

/-- The `USING` predicate of policy `stores_manager_access`: whether the
store-manager role with user id `uid` can read the `stores` row `s`. -/
def stores_manager_access (access : List AccessRow) (uid : ℕ) (s : Store) : Bool :=
  grantedStoreIds access uid s.id

/-- The body of the scheduled job `cleanup-expired-access` (003, lines
499-504): `UPDATE user_store_access SET is_active = false WHERE expires_at
< NOW() AND is_active = true`. -/
def cleanup_expired_access (access : List AccessRow) (now : ℤ) : List AccessRow :=
  access.map (fun a =>
    if (match a.expiresAt with | some e => decide (e < now) | none => false) && a.isActive
    then { a with isActive := false } else a)

/-- `revoke_store_access(p_user_id, p_store_id)` (003, lines 364-404):
raises unless the caller holds an active admin grant on the store or is
`db_admin`; otherwise sets `is_active = false` on the matching grant rows
(a soft flag — the row is not deleted). -/
def revoke_store_access (access : List AccessRow) (callerUid : ℕ)
    (currentUser : String) (pUserId pStoreId : ℕ) : Except String (List AccessRow) :=
  if ¬(∃ a ∈ access, a.userId = callerUid ∧ a.storeId = pStoreId ∧
        a.accessLevel = "admin" ∧ a.isActive = true) ∧ currentUser ≠ "db_admin" then
    Except.error "Insufficient privileges to revoke store access"
  else
    Except.ok (access.map (fun a =>
      if a.userId = pUserId && a.storeId = pStoreId then { a with isActive := false } else a))

/-- C3, failing input: user 1 holds a grant on store 5 whose `expires_at`
is already in the past (`-1 < 0 = today`). -/
def access3 : List AccessRow := [⟨1, 5, "read", some (-1), true⟩]

/-- C3, failing input: a `sales_interactions` row of store 5, dated today. -/
def si3 : Interaction := ⟨1, 5, none, 0, 12, 100, false, false⟩

/-- C3 (code bug): the store-manager policies check neither `expires_at`
nor `is_active`, so a grant that is already expired still admits the
store's rows — and it keeps admitting them even after the
`cleanup-expired-access` sweep has set `is_active = false`.  The claim
(expired grants behave as if never made, i.e. reads are denied) is what
the schema's own artefacts intend (the sweep job, `revoke_store_access`'s
soft flag, the partial indexes on `is_active = true`, and the table
comment "with expiration support"), but the policy predicate contradicts
it. -/
theorem expired_grant_still_readable :
    sales_interactions_store_manager access3 1 si3 0 = true ∧
    stores_manager_access access3 1 ⟨5, "R", "S"⟩ = true ∧
    sales_interactions_store_manager (cleanup_expired_access access3 0) 1 si3 0 = true := by
  refine ⟨by decide, by decide, by decide⟩

/-- C10: the store-manager read predicates depend on a grant row only
through its `(user_id, store_id)` pair: two `user_store_access` states
whose rows agree on those pairs admit exactly the same rows, whatever
their `is_active` and `expires_at` columns; consequently a successful
`revoke_store_access` — which only flips `is_active` — leaves every
user's readable rows unchanged. -/
theorem store_manager_policy_ignores_activity :
    (∀ (acc acc' : List AccessRow) (uid : ℕ) (si : Interaction) (s : Store) (today : ℤ),
      acc.map (fun a => (a.userId, a.storeId)) = acc'.map (fun a => (a.userId, a.storeId)) →
      sales_interactions_store_manager acc uid si today =
        sales_interactions_store_manager acc' uid si today ∧
      stores_manager_access acc uid s = stores_manager_access acc' uid s) ∧
    (∀ (acc : List AccessRow) (callerUid : ℕ) (currentUser : String)
       (pUserId pStoreId : ℕ) (acc' : List AccessRow) (uid : ℕ) (si : Interaction)
       (s : Store) (today : ℤ),
      revoke_store_access acc callerUid currentUser pUserId pStoreId = Except.ok acc' →
      sales_interactions_store_manager acc' uid si today =
        sales_interactions_store_manager acc uid si today ∧
      stores_manager_access acc' uid s = stores_manager_access acc uid s) := by
  have hgrant : ∀ (acc acc' : List AccessRow) (uid sid : ℕ),
      acc.map (fun a => (a.userId, a.storeId)) = acc'.map (fun a => (a.userId, a.storeId)) →
      grantedStoreIds acc uid sid = grantedStoreIds acc' uid sid := by
    intro acc acc' uid sid h
    unfold grantedStoreIds
    have : ∀ l : List AccessRow,
        l.any (fun a => a.userId = uid && a.storeId = sid) =
          (l.map (fun a => (a.userId, a.storeId))).any
            (fun p => p.1 = uid && p.2 = sid) := by
      intro l
      induction l with
      | nil => rfl
      | cons a t ih => simp [List.any_cons, ih]
    rw [this, this, h]
  constructor
  · intro acc acc' uid si s today h
    exact ⟨by unfold sales_interactions_store_manager; rw [hgrant acc acc' _ _ h],
           by unfold stores_manager_access; rw [hgrant acc acc' _ _ h]⟩
  · intro acc callerUid currentUser pUserId pStoreId acc' uid si s today h
    unfold revoke_store_access at h
    split at h
    · exact absurd h (by simp)
    · have hacc' : acc' = acc.map (fun a =>
          if a.userId = pUserId && a.storeId = pStoreId
          then { a with isActive := false } else a) := (Except.ok.inj h).symm
      have hpairs : acc'.map (fun a => (a.userId, a.storeId)) =
          acc.map (fun a => (a.userId, a.storeId)) := by
        rw [hacc', List.map_map]
        refine List.map_congr_left ?_
        intro a _
        by_cases hm : a.userId = pUserId && a.storeId = pStoreId <;>
          simp [Function.comp, hm]
      exact ⟨(by unfold sales_interactions_store_manager
                 rw [hgrant acc' acc _ _ hpairs]),
             (by unfold stores_manager_access
                 rw [hgrant acc' acc _ _ hpairs])⟩

/-- Witness for C10 at concrete inputs: two grant tables differing only in
`is_active`/`expires_at` admit the same rows, and a successful revocation
by `db_admin` leaves readability unchanged. -/
theorem store_manager_policy_ignores_activity_witness :
    (sales_interactions_store_manager [⟨1, 5, "read", some (-1), true⟩] 1 si3 0 =
      sales_interactions_store_manager [⟨1, 5, "read", none, false⟩] 1 si3 0) ∧
    (revoke_store_access [⟨1, 5, "read", none, true⟩] 2 "db_admin" 1 5 =
      Except.ok [⟨1, 5, "read", none, false⟩]) ∧
    (sales_interactions_store_manager [⟨1, 5, "read", none, false⟩] 1 si3 0 =
      sales_interactions_store_manager [⟨1, 5, "read", none, true⟩] 1 si3 0) := by
  have hrevoke : revoke_store_access [⟨1, 5, "read", none, true⟩] 2 "db_admin" 1 5 =
      Except.ok [⟨1, 5, "read", none, false⟩] := by
    unfold revoke_store_access
    rw [if_neg (by simp)]
    rfl
  refine ⟨(store_manager_policy_ignores_activity.1
            [⟨1, 5, "read", some (-1), true⟩] [⟨1, 5, "read", none, false⟩]
            1 si3 ⟨5, "R", "S"⟩ 0 rfl).1,
          hrevoke,
          (store_manager_policy_ignores_activity.2
            [⟨1, 5, "read", none, true⟩] 2 "db_admin" 1 5
            [⟨1, 5, "read", none, false⟩] 1 si3 ⟨5, "R", "S"⟩ 0 hrevoke).1⟩

/-! ## `refresh_analytics()` (002, lines 13-70)

The procedure refreshes `daily_sales`, `product_performance` and
`regional_performance` in that order inside a single `BEGIN ... EXCEPTION
WHEN OTHERS` block: the first failing `REFRESH` transfers control to the
single handler, which inserts an ERROR audit row and re-raises.  The run
is modelled as a function of a failure oracle saying which `REFRESH
MATERIALIZED VIEW` statements would fail. -/

/-- The three materialized views refreshed by `refresh_analytics`. -/
inductive MatView
  | dailySalesView
  | productPerformanceView
  | regionalPerformanceView
deriving DecidableEq

/-- Audit-log actions written by `refresh_analytics`. -/
inductive RefreshLog
  | start
  | complete
  | errorLog
deriving DecidableEq

/-- Outcome of one `refresh_analytics` run: which views were refreshed,
which audit rows were written, and whether the error was re-raised. -/
structure RefreshOutcome where
  refreshed : List MatView
  logs : List RefreshLog
  raised : Bool
deriving DecidableEq

/-- The order in which the procedure body issues the `REFRESH` statements. -/
def refreshSequence : List MatView :=
  [MatView.dailySalesView, MatView.productPerformanceView, MatView.regionalPerformanceView]

/-- Straight-line execution of the `REFRESH` statements: each statement
either succeeds (and the view is refreshed) or fails, in which case
control leaves the block immediately with the failing view reported. -/
def runRefreshes (fails : MatView → Bool) : List MatView → List MatView × Option MatView
  | [] => ([], none)
  | v :: rest =>
    if fails v then ([], some v)
    else
      let r := runRefreshes fails rest
      (v :: r.1, r.2)

/-- `refresh_analytics()`: the whole body sits in one `BEGIN ... EXCEPTION
WHEN OTHERS THEN <log error>; RAISE; END` block, so the first failure
skips every remaining `REFRESH`, logs an ERROR audit row and re-raises;
only a fully successful run logs COMPLETE. -/
def refresh_analytics (fails : MatView → Bool) : RefreshOutcome :=
  match runRefreshes fails refreshSequence with
  | (done, none) => ⟨done, [RefreshLog.start, RefreshLog.complete], false⟩
  | (done, some _) => ⟨done, [RefreshLog.start, RefreshLog.errorLog], true⟩

/-- The failure oracle in which only the `daily_sales` refresh fails. -/
def failDailyOnly : MatView → Bool := fun v => v = MatView.dailySalesView

/-- C2, counterexample: when refreshing `daily_sales` fails, the claim
says `product_performance` is still refreshed in the same run — but the
single exception handler aborts the run, so it is not. -/
theorem refresh_failure_not_isolated :
    MatView.productPerformanceView ∉ (refresh_analytics failDailyOnly).refreshed := by
  decide

/-- C2, amended: a failure while refreshing a view is logged (the handler
inserts an ERROR audit row) and re-raised, but it is NOT isolated: no view
after the failing one — and in particular nothing when `daily_sales`
fails first — is refreshed in that run; a run with no failure refreshes
all three views and logs COMPLETE. -/
theorem refresh_failure_aborts_run :
    (∀ fails : MatView → Bool, fails MatView.dailySalesView = true →
      (refresh_analytics fails).refreshed = [] ∧
      (refresh_analytics fails).logs = [RefreshLog.start, RefreshLog.errorLog] ∧
      (refresh_analytics fails).raised = true) ∧
    (∀ fails : MatView → Bool, (∀ v, fails v = false) →
      (refresh_analytics fails).refreshed = refreshSequence ∧
      (refresh_analytics fails).logs = [RefreshLog.start, RefreshLog.complete]) := by
  constructor
  · intro fails hf
    simp [refresh_analytics, refreshSequence, runRefreshes, hf]
  · intro fails hf
    simp [refresh_analytics, refreshSequence, runRefreshes, hf]

/-- Witness for C2's amended theorem at the concrete oracles
`failDailyOnly` and "no failures". -/
theorem refresh_failure_aborts_run_witness :
    ((refresh_analytics failDailyOnly).refreshed = [] ∧
     (refresh_analytics failDailyOnly).logs = [RefreshLog.start, RefreshLog.errorLog] ∧
     (refresh_analytics failDailyOnly).raised = true) ∧
    (refresh_analytics (fun _ => false)).refreshed = refreshSequence :=
  ⟨refresh_failure_aborts_run.1 failDailyOnly (by decide),
   (refresh_failure_aborts_run.2 (fun _ => false) (fun _ => rfl)).1⟩

/-! ## `customer_segments` view (003, lines 613-661)

`customer_metrics` aggregates the 365-day window of `sales_interactions`
rows with a non-null `customer_id` per customer; the combined
`customer_segment` is a `CASE` evaluated top-to-bottom:

```sql
CASE
  WHEN total_spent >= 10000 AND transaction_count >= 10
       AND last_transaction_date >= CURRENT_DATE - INTERVAL '30 days' THEN 'VIP'
  WHEN total_spent >= 5000 AND transaction_count >= 5
       AND last_transaction_date >= CURRENT_DATE - INTERVAL '60 days' THEN 'Loyal'
  WHEN last_transaction_date >= CURRENT_DATE - INTERVAL '30 days' THEN 'Active'
  ELSE 'At Risk'
END
```
-/

/-- The per-customer aggregates of `customer_metrics` used by the combined
segment. -/
structure CustomerMetrics where
  customerId : ℕ
  transactionCount : ℕ
  totalSpent : ℚ
  lastTransactionDate : ℤ
deriving DecidableEq

/-- The combined-segment `CASE` expression, evaluated top to bottom. -/
def customerSegment (totalSpent : ℚ) (transactionCount : ℕ)
    (lastTransactionDate today : ℤ) : String :=
  if 10000 ≤ totalSpent ∧ 10 ≤ transactionCount ∧ today - 30 ≤ lastTransactionDate then
    "VIP"
  else if 5000 ≤ totalSpent ∧ 5 ≤ transactionCount ∧ today - 60 ≤ lastTransactionDate then
    "Loyal"
  else if today - 30 ≤ lastTransactionDate then "Active"
  else "At Risk"

/-- The `customer_metrics` CTE: group the 365-day window of interactions
with a non-null customer id by customer. -/
def customer_metrics (db : DB) (today : ℤ) : List CustomerMetrics :=
  let w := db.interactions.filter
    (fun si => si.customerId ≠ none ∧ today - 365 ≤ si.date)
  ((w.map (fun si => si.customerId.getD 0)).dedup).map (fun cid =>
    let g := w.filter (fun si => si.customerId.getD 0 = cid)
    { customerId := cid
      transactionCount := g.length
      totalSpent := (g.map (fun si => si.amount)).sum
      lastTransactionDate := (g.map (fun si => si.date)).foldr max (today - 10000) })

/-- The `customer_segments` view: each customer's metrics with the
combined segment. -/
def customer_segments (db : DB) (today : ℤ) : List (CustomerMetrics × String) :=
  (customer_metrics db today).map (fun m =>
    (m, customerSegment m.totalSpent m.transactionCount m.lastTransactionDate today))

/-- C6: the combined segment is decided first-match-wins in the order VIP,
Loyal, Active, At Risk with the thresholds of the claim; every row of the
view carries exactly that segment of its own metrics; and in particular a
customer meeting both the VIP and the Loyal criteria is classified VIP. -/
theorem customer_segment_first_match_wins :
    (∀ (spent : ℚ) (cnt : ℕ) (last today : ℤ),
      (10000 ≤ spent ∧ 10 ≤ cnt ∧ today - 30 ≤ last) →
        customerSegment spent cnt last today = "VIP") ∧
    (∀ (spent : ℚ) (cnt : ℕ) (last today : ℤ),
      ¬(10000 ≤ spent ∧ 10 ≤ cnt ∧ today - 30 ≤ last) →
      (5000 ≤ spent ∧ 5 ≤ cnt ∧ today - 60 ≤ last) →
        customerSegment spent cnt last today = "Loyal") ∧
    (∀ (spent : ℚ) (cnt : ℕ) (last today : ℤ),
      ¬(10000 ≤ spent ∧ 10 ≤ cnt ∧ today - 30 ≤ last) →
      ¬(5000 ≤ spent ∧ 5 ≤ cnt ∧ today - 60 ≤ last) →
      today - 30 ≤ last →
        customerSegment spent cnt last today = "Active") ∧
    (∀ (spent : ℚ) (cnt : ℕ) (last today : ℤ),
      ¬(10000 ≤ spent ∧ 10 ≤ cnt ∧ today - 30 ≤ last) →
      ¬(5000 ≤ spent ∧ 5 ≤ cnt ∧ today - 60 ≤ last) →
      ¬(today - 30 ≤ last) →
        customerSegment spent cnt last today = "At Risk") ∧
    (∀ (db : DB) (today : ℤ) (r : CustomerMetrics × String),
      r ∈ customer_segments db today →
        r.2 = customerSegment r.1.totalSpent r.1.transactionCount
                r.1.lastTransactionDate today) := by
  refine ⟨?_, ?_, ?_, ?_, ?_⟩
  · intro spent cnt last today h
    unfold customerSegment
    rw [if_pos h]
  · intro spent cnt last today h1 h2
    unfold customerSegment
    rw [if_neg h1, if_pos h2]
  · intro spent cnt last today h1 h2 h3
    unfold customerSegment
    rw [if_neg h1, if_neg h2, if_pos h3]
  · intro spent cnt last today h1 h2 h3
    unfold customerSegment
    rw [if_neg h1, if_neg h2, if_neg h3]
  · intro db today r hr
    rcases List.mem_map.mp hr with ⟨m, _, hm⟩
    subst hm
    rfl

/-- Witness for C6: a customer with spend 12000, 12 transactions and a
last transaction today meets both the VIP and the Loyal criteria and is
classified VIP — both through the `CASE` expression directly and through
the view built from concrete transactions. -/
theorem customer_segment_first_match_wins_witness :
    customerSegment 12000 12 0 0 = "VIP" ∧
    (12000 ≤ (12000 : ℚ) ∧ 5 ≤ 12 ∧ (0 : ℤ) - 60 ≤ 0) ∧
    (customer_segments
        { stores := [], brands := [], products := [], items := [],
          interactions :=
            [⟨1, 1, some 7, 0, 10, 1000, false, false⟩,
             ⟨2, 1, some 7, 0, 10, 1000, false, false⟩,
             ⟨3, 1, some 7, 0, 10, 1000, false, false⟩,
             ⟨4, 1, some 7, 0, 10, 1000, false, false⟩,
             ⟨5, 1, some 7, 0, 10, 1000, false, false⟩,
             ⟨6, 1, some 7, 0, 10, 1000, false, false⟩,
             ⟨7, 1, some 7, 0, 10, 1000, false, false⟩,
             ⟨8, 1, some 7, 0, 10, 1000, false, false⟩,
             ⟨9, 1, some 7, 0, 10, 1000, false, false⟩,
             ⟨10, 1, some 7, 0, 10, 1000, false, false⟩,
             ⟨11, 1, some 7, 0, 10, 1000, false, false⟩,
             ⟨12, 1, some 7, 0, 10, 1000, false, false⟩] }
        0).map (fun r => (r.1.customerId, r.2)) = [(7, "VIP")] := by
  refine ⟨customer_segment_first_match_wins.1 12000 12 0 0
            ⟨by norm_num, by norm_num, by norm_num⟩,
          ⟨by norm_num, by norm_num, by norm_num⟩, ?_⟩
  simp only [customer_segments, customer_metrics]
  simp [List.dedup_cons_of_mem, List.dedup_cons_of_not_mem]
  norm_num [customerSegment]

/-! ## `detect_sales_anomalies()` (002, lines 107-188)

Suspicious-transaction detection:

```sql
SELECT AVG(total_amount), STDDEV(total_amount)
INTO avg_transaction_amount, std_transaction_amount
FROM sales_interactions
WHERE transaction_date >= CURRENT_DATE - INTERVAL '30 days';
high_value_threshold := avg_transaction_amount + (3 * std_transaction_amount);
...
FROM sales_interactions
WHERE transaction_date >= CURRENT_DATE - INTERVAL '7 days'
AND total_amount > high_value_threshold;  -- severity CASE: > threshold*2
```

`STDDEV` is PostgreSQL's *sample* standard deviation (`STDDEV_SAMP`),
`NULL` for fewer than two rows, in which case the `NULL` threshold makes
the `WHERE` comparison unknown and nothing is flagged.  `t > μ + k·σ`
(with `σ = √v ≥ 0`) is equivalent to `0 < t - μ ∧ k²·v < (t - μ)²`, which
is the executable rational form used below; the lemmas `gt_mul_sqrt_iff`
and `rat_cond_iff_real` establish the equivalence. -/

/-- `AVG` of a list of numeric values (0 on the empty list, where SQL
would give `NULL`; all uses below are guarded by length hypotheses). -/
def mean (l : List ℚ) : ℚ := l.sum / l.length

/-- Sample variance, the square of PostgreSQL `STDDEV = STDDEV_SAMP`
(meaningful only for lists of length ≥ 2, where SQL's value is non-NULL). -/
def sampleVar (l : List ℚ) : ℚ :=
  (l.map (fun x => (x - mean l) ^ 2)).sum / ((l.length : ℚ) - 1)

/-- Modelled from the spec: the *population* variance over a list of
values ("population statistics over per-store averages"), stated for
comparison with the source's sample statistics in claim C5. -/
def popVar (l : List ℚ) : ℚ :=
  (l.map (fun x => (x - mean l) ^ 2)).sum / (l.length : ℚ)

lemma sq_sum_nonneg (l : List ℚ) (c : ℚ) :
    0 ≤ (l.map (fun x => (x - c) ^ 2)).sum := by
  refine List.sum_nonneg ?_
  intro x hx
  rcases List.mem_map.mp hx with ⟨y, _, rfl⟩
  positivity

lemma sampleVar_nonneg (l : List ℚ) : 0 ≤ sampleVar l := by
  unfold sampleVar
  match l with
  | [] => norm_num
  | [a] => norm_num
  | a :: b :: t =>
    have hlen : (2 : ℚ) ≤ ((a :: b :: t).length : ℚ) := by
      have : 2 ≤ (a :: b :: t).length := by simp
      exact_mod_cast this
    exact div_nonneg (sq_sum_nonneg _ _) (by linarith)

/-- `s > k·√v` iff `s` is positive and its square beats `k²·v` (for
`k > 0`, `v ≥ 0`): the bridge between the source's comparison against a
standard deviation and the executable squared form. -/
lemma gt_mul_sqrt_iff (k s v : ℝ) (hk : 0 < k) (hv : 0 ≤ v) :
    k * Real.sqrt v < s ↔ 0 < s ∧ k ^ 2 * v < s ^ 2 := by
  constructor
  · intro h
    have hks : 0 ≤ k * Real.sqrt v := by positivity
    have hs : 0 < s := lt_of_le_of_lt hks h
    refine ⟨hs, ?_⟩
    have h2 := pow_lt_pow_left₀ h hks two_ne_zero
    calc k ^ 2 * v = (k * Real.sqrt v) ^ 2 := by rw [mul_pow, Real.sq_sqrt hv]
      _ < s ^ 2 := h2
  · rintro ⟨hs, h2⟩
    have h1 : (k * Real.sqrt v) ^ 2 < s ^ 2 := by
      rw [mul_pow, Real.sq_sqrt hv]; exact h2
    exact lt_of_pow_lt_pow_left₀ 2 (le_of_lt hs) h1

/-- `|d| > k·√v` iff `d² > k²·v` (for `k > 0`, `v ≥ 0`). -/
lemma abs_gt_mul_sqrt_iff (k d v : ℝ) (hk : 0 < k) (hv : 0 ≤ v) :
    k * Real.sqrt v < |d| ↔ k ^ 2 * v < d ^ 2 := by
  rw [gt_mul_sqrt_iff k |d| v hk hv, sq_abs]
  refine ⟨fun h => h.2, fun h => ⟨?_, h⟩⟩
  rcases eq_or_ne d 0 with rfl | hd
  · exfalso
    have hnn : 0 ≤ k ^ 2 * v := by positivity
    norm_num at h
    linarith
  · exact abs_pos.mpr hd

/-- The rational squared condition transferred to the real comparison
against `k` standard deviations. -/
lemma rat_cond_iff_real (s v : ℚ) (k : ℕ) (hk : 0 < k) (hv : 0 ≤ v) :
    (0 < s ∧ (k : ℚ) ^ 2 * v < s ^ 2) ↔
      (k : ℝ) * Real.sqrt ((v : ℚ) : ℝ) < ((s : ℚ) : ℝ) := by
  rw [gt_mul_sqrt_iff (k : ℝ) ((s : ℚ) : ℝ) ((v : ℚ) : ℝ)
      (by exact_mod_cast hk) (by exact_mod_cast hv)]
  constructor
  · rintro ⟨h1, h2⟩
    exact ⟨by exact_mod_cast h1, by exact_mod_cast h2⟩
  · rintro ⟨h1, h2⟩
    exact ⟨by exact_mod_cast h1, by exact_mod_cast h2⟩

/-- The rational squared condition transferred to the real comparison of
an absolute deviation against `k` standard deviations. -/
lemma rat_abs_cond_iff_real (d v : ℚ) (k : ℕ) (hk : 0 < k) (hv : 0 ≤ v) :
    ((k : ℚ) ^ 2 * v < d ^ 2) ↔
      (k : ℝ) * Real.sqrt ((v : ℚ) : ℝ) < |((d : ℚ) : ℝ)| := by
  rw [abs_gt_mul_sqrt_iff (k : ℝ) ((d : ℚ) : ℝ) ((v : ℚ) : ℝ)
      (by exact_mod_cast hk) (by exact_mod_cast hv)]
  constructor
  · intro h; exact_mod_cast h
  · intro h; exact_mod_cast h

/-- The trailing-30-day `total_amount` sample feeding `AVG`/`STDDEV`. -/
def amounts30 (db : DB) (today : ℤ) : List ℚ :=
  (db.interactions.filter (fun si => today - 30 ≤ si.date)).map (fun si => si.amount)

/-- The `WHERE total_amount > high_value_threshold` test of the
SUSPICIOUS_TRANSACTION insert, in squared form (`t > μ + 3σ` iff
`0 < t - μ` and `9·v < (t - μ)²`); the length guard models the `NULL`
threshold when `STDDEV` has fewer than two rows. -/
def isSuspicious (db : DB) (today : ℤ) (t : Interaction) : Bool :=
  let h := amounts30 db today
  decide (2 ≤ h.length ∧ 0 < t.amount - mean h ∧
    9 * sampleVar h < (t.amount - mean h) ^ 2)

/-- The severity `CASE`: `'high'` when `total_amount > threshold * 2`,
i.e. `t > 2μ + 6σ`, in squared form; else `'medium'`. -/
def suspiciousSeverity (db : DB) (today : ℤ) (t : Interaction) : String :=
  let h := amounts30 db today
  if 0 < t.amount - 2 * mean h ∧ 36 * sampleVar h < (t.amount - 2 * mean h) ^ 2
  then "high" else "medium"

/-- The SUSPICIOUS_TRANSACTION rows inserted into `anomalies`: one
`(interaction_id, severity)` per trailing-7-day transaction above the
threshold. -/
def detect_suspicious (db : DB) (today : ℤ) : List (ℕ × String) :=
  (db.interactions.filter (fun si => today - 7 ≤ si.date)).filterMap
    (fun t =>
      if isSuspicious db today t then some (t.interactionId, suspiciousSeverity db today t)
      else none)

/-- C4: with at least two transactions in the 30-day sample (so `STDDEV`
is non-NULL), a trailing-7-day transaction whose amount is exactly
`mean + 3·stddev` is NOT flagged SUSPICIOUS_TRANSACTION; one strictly
above is flagged (and lands in the inserted anomaly rows); and a flagged
transaction's severity is `'high'` exactly when its amount strictly
exceeds twice the threshold, else `'medium'`. -/
theorem suspicious_threshold_boundary :
    (∀ (db : DB) (today : ℤ) (t : Interaction),
      2 ≤ (amounts30 db today).length →
      ((t.amount : ℚ) : ℝ) =
        ((mean (amounts30 db today) : ℚ) : ℝ) +
          3 * Real.sqrt ((sampleVar (amounts30 db today) : ℚ) : ℝ) →
      isSuspicious db today t = false) ∧
    (∀ (db : DB) (today : ℤ) (t : Interaction),
      t ∈ db.interactions → today - 7 ≤ t.date →
      2 ≤ (amounts30 db today).length →
      ((mean (amounts30 db today) : ℚ) : ℝ) +
          3 * Real.sqrt ((sampleVar (amounts30 db today) : ℚ) : ℝ) <
        ((t.amount : ℚ) : ℝ) →
      isSuspicious db today t = true ∧
      (t.interactionId, suspiciousSeverity db today t) ∈ detect_suspicious db today) ∧
    (∀ (db : DB) (today : ℤ) (t : Interaction),
      2 ≤ (amounts30 db today).length →
      isSuspicious db today t = true →
      (suspiciousSeverity db today t = "high" ↔
        2 * (((mean (amounts30 db today) : ℚ) : ℝ) +
          3 * Real.sqrt ((sampleVar (amounts30 db today) : ℚ) : ℝ)) <
          ((t.amount : ℚ) : ℝ)) ∧
      (suspiciousSeverity db today t = "medium" ↔
        ¬(2 * (((mean (amounts30 db today) : ℚ) : ℝ) +
          3 * Real.sqrt ((sampleVar (amounts30 db today) : ℚ) : ℝ)) <
          ((t.amount : ℚ) : ℝ)))) := by
  have hsev : ∀ (db : DB) (today : ℤ) (t : Interaction),
      (0 < t.amount - 2 * mean (amounts30 db today) ∧
        36 * sampleVar (amounts30 db today) <
          (t.amount - 2 * mean (amounts30 db today)) ^ 2) ↔
      2 * (((mean (amounts30 db today) : ℚ) : ℝ) +
          3 * Real.sqrt ((sampleVar (amounts30 db today) : ℚ) : ℝ)) <
        ((t.amount : ℚ) : ℝ) := by
    intro db today t
    have hv := sampleVar_nonneg (amounts30 db today)
    have h := rat_cond_iff_real (t.amount - 2 * mean (amounts30 db today))
      (sampleVar (amounts30 db today)) 6 (by norm_num) hv
    norm_num at h
    rw [sub_pos, h]
    constructor
    · intro hr
      push_cast at hr
      linarith
    · intro hr
      linarith
  refine ⟨?_, ?_, ?_⟩
  · intro db today t _ heq
    have hv := sampleVar_nonneg (amounts30 db today)
    have hvR : (0 : ℝ) ≤ ((sampleVar (amounts30 db today) : ℚ) : ℝ) := by exact_mod_cast hv
    simp only [isSuspicious, decide_eq_false_iff_not]
    rintro ⟨-, -, h2⟩
    have hR : (9 : ℝ) * ((sampleVar (amounts30 db today) : ℚ) : ℝ) <
        (((t.amount : ℚ) : ℝ) - ((mean (amounts30 db today) : ℚ) : ℝ)) ^ 2 := by
      exact_mod_cast h2
    rw [heq] at hR
    have hs := Real.sq_sqrt hvR
    nlinarith [hR, hs]
  · intro db today t ht hdate hlen hlt
    have hv := sampleVar_nonneg (amounts30 db today)
    have hcond := (rat_cond_iff_real (t.amount - mean (amounts30 db today))
      (sampleVar (amounts30 db today)) 3 (by norm_num) hv)
    norm_num at hcond
    have hQ : 0 < t.amount - mean (amounts30 db today) ∧
        9 * sampleVar (amounts30 db today) <
          (t.amount - mean (amounts30 db today)) ^ 2 := by
      rw [sub_pos, hcond]
      linarith
    have hflag : isSuspicious db today t = true := by
      simp only [isSuspicious, decide_eq_true_eq]
      exact ⟨hlen, hQ.1, hQ.2⟩
    refine ⟨hflag, ?_⟩
    refine List.mem_filterMap.mpr ⟨t, List.mem_filter.mpr ⟨ht, decide_eq_true hdate⟩, ?_⟩
    rw [hflag]
    simp
  · intro db today t _ _
    constructor
    · by_cases hc : 0 < t.amount - 2 * mean (amounts30 db today) ∧
          36 * sampleVar (amounts30 db today) <
            (t.amount - 2 * mean (amounts30 db today)) ^ 2
      · simp only [suspiciousSeverity, if_pos hc]
        simpa using (hsev db today t).mp hc
      · simp only [suspiciousSeverity, if_neg hc]
        constructor
        · intro h
          exact absurd h (by simp)
        · intro h
          exact absurd ((hsev db today t).mpr h) hc
    · by_cases hc : 0 < t.amount - 2 * mean (amounts30 db today) ∧
          36 * sampleVar (amounts30 db today) <
            (t.amount - 2 * mean (amounts30 db today)) ^ 2
      · simp only [suspiciousSeverity, if_pos hc]
        constructor
        · intro h
          exact absurd h (by simp)
        · intro h
          exact absurd ((hsev db today t).mp hc) h
      · simp only [suspiciousSeverity, if_neg hc]
        exact ⟨fun _ hR => hc ((hsev db today t).mpr hR), fun _ => trivial⟩

/-- The last transaction of `db4`: amount 4 on day 0, inside both the
7-day and the 30-day windows. -/
def tLast : Interaction := ⟨16, 1, none, 0, 12, 4, false, false⟩

/-- Concrete anomaly-detection data: fifteen zero-amount transactions ten
days ago plus `tLast`; the 30-day sample has mean 1/4 and sample variance
1, so the threshold is 1/4 + 3·1 = 13/4. -/
def db4 : DB :=
  { stores := [], brands := [], products := [], items := [],
    interactions :=
      [⟨1, 1, none, -10, 12, 0, false, false⟩,
       ⟨2, 1, none, -10, 12, 0, false, false⟩,
       ⟨3, 1, none, -10, 12, 0, false, false⟩,
       ⟨4, 1, none, -10, 12, 0, false, false⟩,
       ⟨5, 1, none, -10, 12, 0, false, false⟩,
       ⟨6, 1, none, -10, 12, 0, false, false⟩,
       ⟨7, 1, none, -10, 12, 0, false, false⟩,
       ⟨8, 1, none, -10, 12, 0, false, false⟩,
       ⟨9, 1, none, -10, 12, 0, false, false⟩,
       ⟨10, 1, none, -10, 12, 0, false, false⟩,
       ⟨11, 1, none, -10, 12, 0, false, false⟩,
       ⟨12, 1, none, -10, 12, 0, false, false⟩,
       ⟨13, 1, none, -10, 12, 0, false, false⟩,
       ⟨14, 1, none, -10, 12, 0, false, false⟩,
       ⟨15, 1, none, -10, 12, 0, false, false⟩,
       tLast] }

/-- A transaction exactly at the `db4` threshold 13/4 (not flagged). -/
def tBoundary : Interaction := ⟨17, 1, none, 0, 12, 13 / 4, false, false⟩

/-- A transaction far above twice the `db4` threshold (severity high). -/
def tHigh : Interaction := ⟨18, 1, none, 0, 12, 100, false, false⟩

/-- Witness for C4 on `db4`: the boundary transaction is not flagged, the
amount-4 transaction is flagged and inserted, and the severity iff holds
at `tHigh`. -/
theorem suspicious_threshold_boundary_witness :
    isSuspicious db4 0 tBoundary = false ∧
    (isSuspicious db4 0 tLast = true ∧
      (16, suspiciousSeverity db4 0 tLast) ∈ detect_suspicious db4 0) ∧
    (suspiciousSeverity db4 0 tHigh = "high" ↔
      2 * (((mean (amounts30 db4 0) : ℚ) : ℝ) +
        3 * Real.sqrt ((sampleVar (amounts30 db4 0) : ℚ) : ℝ)) <
        ((tHigh.amount : ℚ) : ℝ)) := by
  have hl : amounts30 db4 0 = [0, 0, 0, 0, 0, 0, 0, 0, 0, 0, 0, 0, 0, 0, 0, 4] := by
    simp [amounts30, db4, tLast]
  have hm : mean (amounts30 db4 0) = 1 / 4 := by rw [hl]; norm_num [mean]
  have hv : sampleVar (amounts30 db4 0) = 1 := by rw [hl]; norm_num [sampleVar, mean]
  have hlen : 2 ≤ (amounts30 db4 0).length := by rw [hl]; norm_num
  refine ⟨?_, ?_, ?_⟩
  · refine suspicious_threshold_boundary.1 db4 0 tBoundary hlen ?_
    rw [hm, hv]
    push_cast
    rw [Real.sqrt_one]
    norm_num [tBoundary]
  · refine suspicious_threshold_boundary.2.1 db4 0 tLast ?_ ?_ hlen ?_
    · simp [db4]
    · norm_num [tLast]
    · rw [hm, hv]
      push_cast
      rw [Real.sqrt_one]
      norm_num [tLast]
  · refine (suspicious_threshold_boundary.2.2 db4 0 tHigh hlen ?_).1
    simp only [isSuspicious, decide_eq_true_eq]
    rw [hl]
    norm_num [mean, sampleVar, tHigh]

/-! ## UNUSUAL_PATTERN detection (002, lines 157-188)

```sql
WITH store_performance AS (
    SELECT store_id, AVG(total_amount) as avg_amount, COUNT(*) as transaction_count
    FROM sales_interactions
    WHERE transaction_date >= CURRENT_DATE - INTERVAL '7 days'
    GROUP BY store_id
    HAVING COUNT(*) >= 5
),
performance_stats AS (
    SELECT AVG(avg_amount) as overall_avg, STDDEV(avg_amount) as overall_std
    FROM store_performance
)
INSERT ... WHERE ABS(sp.avg_amount - ps.overall_avg) > (2 * ps.overall_std);
```
-/

/-- A row of the `store_performance` CTE. -/
structure StorePerf where
  storeId : ℕ
  avgAmount : ℚ
  txCount : ℕ
deriving DecidableEq

/-- The `GROUP BY store_id` aggregate for one store over the trailing
7-day window. -/
def storePerfRow (db : DB) (today : ℤ) (sid : ℕ) : StorePerf :=
  let g := (db.interactions.filter (fun si => today - 7 ≤ si.date)).filter
    (fun si => si.storeId = sid)
  ⟨sid, (g.map (fun si => si.amount)).sum / g.length, g.length⟩

/-- The `store_performance` CTE: per-store average and count over the
trailing 7 days, keeping stores with at least 5 transactions (`HAVING`). -/
def store_performance (db : DB) (today : ℤ) : List StorePerf :=
  (((db.interactions.filter (fun si => today - 7 ≤ si.date)).map
      (fun si => si.storeId)).dedup.map (storePerfRow db today)).filter
    (fun p => 5 ≤ p.txCount)

/-- The UNUSUAL_PATTERN store ids: stores whose 7-day average deviates
from the cross-store average of per-store averages by more than 2 sample
standard deviations of those averages (`ABS(d) > 2σ` iff `4·v < d²`);
with fewer than two qualifying stores `STDDEV` is `NULL` and nothing is
flagged. -/
def unusual_stores (db : DB) (today : ℤ) : List ℕ :=
  let perf := store_performance db today
  let avgs := perf.map StorePerf.avgAmount
  if perf.length < 2 then []
  else (perf.filter (fun p =>
    4 * sampleVar avgs < (p.avgAmount - mean avgs) ^ 2)).map StorePerf.storeId

/-- Every `store_performance` row is the aggregate of its own store id. -/
lemma mem_store_performance (db : DB) (today : ℤ) (p : StorePerf)
    (hp : p ∈ store_performance db today) : p = storePerfRow db today p.storeId := by
  rcases List.mem_filter.mp hp with ⟨hmem, -⟩
  rcases List.mem_map.mp hmem with ⟨sid, -, hrow⟩
  have hid : p.storeId = sid := by rw [← hrow]; rfl
  rw [hid, hrow]

/-- Concrete data for C5: nine stores with five same-day transactions
each; per-store averages 10 (stores 1-7), 16 (store 8) and 4 (store 9),
whose population variance is 8 and sample variance is 9. -/
def db5 : DB :=
  { stores := [], brands := [], products := [], items := [],
    interactions :=
      [⟨1, 1, none, 0, 12, 10, false, false⟩, ⟨2, 1, none, 0, 12, 10, false, false⟩,
       ⟨3, 1, none, 0, 12, 10, false, false⟩, ⟨4, 1, none, 0, 12, 10, false, false⟩,
       ⟨5, 1, none, 0, 12, 10, false, false⟩,
       ⟨6, 2, none, 0, 12, 10, false, false⟩, ⟨7, 2, none, 0, 12, 10, false, false⟩,
       ⟨8, 2, none, 0, 12, 10, false, false⟩, ⟨9, 2, none, 0, 12, 10, false, false⟩,
       ⟨10, 2, none, 0, 12, 10, false, false⟩,
       ⟨11, 3, none, 0, 12, 10, false, false⟩, ⟨12, 3, none, 0, 12, 10, false, false⟩,
       ⟨13, 3, none, 0, 12, 10, false, false⟩, ⟨14, 3, none, 0, 12, 10, false, false⟩,
       ⟨15, 3, none, 0, 12, 10, false, false⟩,
       ⟨16, 4, none, 0, 12, 10, false, false⟩, ⟨17, 4, none, 0, 12, 10, false, false⟩,
       ⟨18, 4, none, 0, 12, 10, false, false⟩, ⟨19, 4, none, 0, 12, 10, false, false⟩,
       ⟨20, 4, none, 0, 12, 10, false, false⟩,
       ⟨21, 5, none, 0, 12, 10, false, false⟩, ⟨22, 5, none, 0, 12, 10, false, false⟩,
       ⟨23, 5, none, 0, 12, 10, false, false⟩, ⟨24, 5, none, 0, 12, 10, false, false⟩,
       ⟨25, 5, none, 0, 12, 10, false, false⟩,
       ⟨26, 6, none, 0, 12, 10, false, false⟩, ⟨27, 6, none, 0, 12, 10, false, false⟩,
       ⟨28, 6, none, 0, 12, 10, false, false⟩, ⟨29, 6, none, 0, 12, 10, false, false⟩,
       ⟨30, 6, none, 0, 12, 10, false, false⟩,
       ⟨31, 7, none, 0, 12, 10, false, false⟩, ⟨32, 7, none, 0, 12, 10, false, false⟩,
       ⟨33, 7, none, 0, 12, 10, false, false⟩, ⟨34, 7, none, 0, 12, 10, false, false⟩,
       ⟨35, 7, none, 0, 12, 10, false, false⟩,
       ⟨36, 8, none, 0, 12, 16, false, false⟩, ⟨37, 8, none, 0, 12, 16, false, false⟩,
       ⟨38, 8, none, 0, 12, 16, false, false⟩, ⟨39, 8, none, 0, 12, 16, false, false⟩,
       ⟨40, 8, none, 0, 12, 16, false, false⟩,
       ⟨41, 9, none, 0, 12, 4, false, false⟩, ⟨42, 9, none, 0, 12, 4, false, false⟩,
       ⟨43, 9, none, 0, 12, 4, false, false⟩, ⟨44, 9, none, 0, 12, 4, false, false⟩,
       ⟨45, 9, none, 0, 12, 4, false, false⟩] }

/-- Evaluation of the `store_performance` CTE on `db5`. -/
lemma store_performance_db5 : store_performance db5 0 =
    [⟨1, 10, 5⟩, ⟨2, 10, 5⟩, ⟨3, 10, 5⟩, ⟨4, 10, 5⟩, ⟨5, 10, 5⟩, ⟨6, 10, 5⟩,
     ⟨7, 10, 5⟩, ⟨8, 16, 5⟩, ⟨9, 4, 5⟩] := by
  simp only [store_performance, db5]
  simp [storePerfRow, List.dedup_cons_of_mem, List.dedup_cons_of_not_mem]
  norm_num

/-- C5, counterexample: in `db5`, store 8 has 5 transactions in the
window and its average 16 deviates from the cross-store average 10 by
6 > 2·√8 — i.e. by more than 2 *population* standard deviations of the
per-store averages as the claim requires — yet the code (which uses
PostgreSQL `STDDEV`, the *sample* standard deviation 3, so the cut-off is
exactly 6) does not flag it: the claimed `exactly when` fails. -/
theorem unusual_pattern_population_counterexample :
    (8 : ℕ) ∉ unusual_stores db5 0 ∧
    (store_performance db5 0).filter (fun p => p.storeId = 8) = [⟨8, 16, 5⟩] ∧
    mean ((store_performance db5 0).map StorePerf.avgAmount) = 10 ∧
    popVar ((store_performance db5 0).map StorePerf.avgAmount) = 8 ∧
    2 * Real.sqrt ((8 : ℚ) : ℝ) < |((16 : ℚ) : ℝ) - ((10 : ℚ) : ℝ)| := by
  have hperf := store_performance_db5
  refine ⟨?_, ?_, ?_, ?_, ?_⟩
  · rw [unusual_stores]
    simp only [hperf]
    norm_num [sampleVar, mean]
  · rw [hperf]
    simp
  · rw [hperf]
    norm_num [mean]
  · rw [hperf]
    norm_num [popVar, mean]
  · have h8 : Real.sqrt ((8 : ℚ) : ℝ) < 3 := by
      rw [show (((8 : ℚ) : ℝ)) = (8 : ℝ) by norm_num]
      exact (Real.sqrt_lt' (by norm_num)).mpr (by norm_num)
    rw [show |((16 : ℚ) : ℝ) - ((10 : ℚ) : ℝ)| = 6 by rw [abs_of_nonneg] <;> norm_num]
    linarith

/-- C5, amended: a store is flagged UNUSUAL_PATTERN exactly when it has
at least 5 transactions in the trailing 7 days (i.e. appears in
`store_performance`, of which there must be at least two rows for
`STDDEV` to be non-NULL) and its per-store average deviates from the
cross-store average of per-store averages by strictly more than 2
*sample* standard deviations (PostgreSQL `STDDEV = STDDEV_SAMP`) of those
per-store averages. -/
theorem unusual_pattern_sample_stddev (db : DB) (today : ℤ) (p : StorePerf)
    (hp : p ∈ store_performance db today)
    (h2 : 2 ≤ (store_performance db today).length) :
    p.storeId ∈ unusual_stores db today ↔
      2 * Real.sqrt ((sampleVar ((store_performance db today).map StorePerf.avgAmount) : ℚ) : ℝ) <
        |((p.avgAmount : ℚ) : ℝ) -
          ((mean ((store_performance db today).map StorePerf.avgAmount) : ℚ) : ℝ)| := by
  have hv := sampleVar_nonneg ((store_performance db today).map StorePerf.avgAmount)
  have hbridge := rat_abs_cond_iff_real
    (p.avgAmount - mean ((store_performance db today).map StorePerf.avgAmount))
    (sampleVar ((store_performance db today).map StorePerf.avgAmount)) 2 (by norm_num) hv
  norm_num at hbridge
  rw [← hbridge]
  unfold unusual_stores
  rw [if_neg (by omega)]
  constructor
  · intro hmem
    rcases List.mem_map.mp hmem with ⟨q, hq, hqid⟩
    rcases List.mem_filter.mp hq with ⟨hqperf, hqcond⟩
    have hqq : q = storePerfRow db today q.storeId := mem_store_performance db today q hqperf
    have hpp : p = storePerfRow db today p.storeId := mem_store_performance db today p hp
    have : q = p := by rw [hqq, hpp, hqid]
    rw [← this]
    exact of_decide_eq_true hqcond
  · intro hcond
    refine List.mem_map.mpr ⟨p, List.mem_filter.mpr ⟨hp, decide_eq_true hcond⟩, rfl⟩

/-- Witness for C5's amended theorem: in `db5` (sample variance of the
averages 9, so the cut-off is 6), store 9 with average 4 deviates by
exactly 6 and is not flagged, matching the iff's right side being false. -/
theorem unusual_pattern_sample_stddev_witness :
    StorePerf.mk 8 16 5 ∈ store_performance db5 0 ∧
    2 ≤ (store_performance db5 0).length ∧
    ((StorePerf.mk 8 16 5).storeId ∈ unusual_stores db5 0 ↔
      2 * Real.sqrt ((sampleVar ((store_performance db5 0).map StorePerf.avgAmount) : ℚ) : ℝ) <
        |(((StorePerf.mk 8 16 5).avgAmount : ℚ) : ℝ) -
          ((mean ((store_performance db5 0).map StorePerf.avgAmount) : ℚ) : ℝ)|) := by
  have hperf := store_performance_db5
  have hmem : StorePerf.mk 8 16 5 ∈ store_performance db5 0 := by rw [hperf]; simp
  have hlen : 2 ≤ (store_performance db5 0).length := by rw [hperf]; norm_num
  exact ⟨hmem, hlen, unusual_pattern_sample_stddev db5 0 ⟨8, 16, 5⟩ hmem hlen⟩

/-! ## Rounding and NULL helpers for the share views -/

/-- PostgreSQL `ROUND(x, 2)` on `NUMERIC`: round half away from zero to
two decimal places. -/
def round2 (q : ℚ) : ℚ :=
  if 0 ≤ q then (⌊q * 100 + 1 / 2⌋ : ℚ) / 100 else -((⌊-q * 100 + 1 / 2⌋ : ℚ) / 100)

/-- SQL `NULLIF(a, b)`: `NULL` when the arguments are equal. -/
def nullif (a b : ℚ) : Option ℚ := if a = b then none else some a

/-- Rounding to two decimals moves a value by at most half a cent. -/
lemma abs_round2_sub_le (q : ℚ) : |round2 q - q| ≤ 1 / 200 := by
  unfold round2
  by_cases hq : 0 ≤ q
  · rw [if_pos hq, abs_le]
    have h1 : (⌊q * 100 + 1 / 2⌋ : ℚ) ≤ q * 100 + 1 / 2 := Int.floor_le _
    have h2 : q * 100 + 1 / 2 - 1 < (⌊q * 100 + 1 / 2⌋ : ℚ) := Int.sub_one_lt_floor _
    constructor <;> linarith
  · rw [if_neg hq, abs_le]
    have h1 : (⌊-q * 100 + 1 / 2⌋ : ℚ) ≤ -q * 100 + 1 / 2 := Int.floor_le _
    have h2 : -q * 100 + 1 / 2 - 1 < (⌊-q * 100 + 1 / 2⌋ : ℚ) := Int.sub_one_lt_floor _
    constructor <;> linarith

/-- Rounding each summand to two decimals moves a sum by at most half a
cent per summand. -/
lemma abs_sum_round2_sub_le (l : List ℚ) :
    |(l.map round2).sum - l.sum| ≤ l.length / 200 := by
  induction l with
  | nil => simp
  | cons a t ih =>
    simp only [List.map_cons, List.sum_cons, List.length_cons]
    have h := abs_round2_sub_le a
    have hsplit : round2 a + (t.map round2).sum - (a + t.sum) =
        (round2 a - a) + ((t.map round2).sum - t.sum) := by ring
    rw [hsplit]
    calc |(round2 a - a) + ((t.map round2).sum - t.sum)|
        ≤ |round2 a - a| + |(t.map round2).sum - t.sum| := abs_add _ _
      _ ≤ 1 / 200 + t.length / 200 := add_le_add h ih
      _ = ((t.length : ℚ) + 1) / 200 := by ring
      _ = ((t.length + 1 : ℕ) : ℚ) / 200 := by push_cast; ring

/-- Factoring a common `/ T * c` out of a mapped sum. -/
lemma sum_map_div_mul {α : Type} (l : List α) (f : α → ℚ) (T c : ℚ) :
    (l.map (fun x => f x / T * c)).sum = (l.map f).sum / T * c := by
  induction l with
  | nil => simp
  | cons a t ih =>
    simp only [List.map_cons, List.sum_cons, ih]
    ring

/-! ## `brand_competition_dashboard` materialized view (005, lines 159-213)

`brand_metrics` joins `transaction_items → products → brands →
sales_interactions → stores` over the trailing 30 days and groups by
`(b.name, b.category)`; `category_totals` sums the groups per category;
the dashboard computes `ROUND(bm.revenue / ct.category_total_revenue *
100, 2)` with **no** `NULLIF` guard, so a zero category total raises a
division-by-zero error (modelled as `Except.error`). -/

/-- One joined row of `brand_metrics`' `FROM` clause. -/
structure BrandJoinRow where
  item : Item
  product : Product
  brand : Brand
  interaction : Interaction
  store : Store
deriving DecidableEq

/-- The 30-day windowed five-way join of `brand_metrics`. -/
def brandJoined (db : DB) (today : ℤ) : List BrandJoinRow :=
  db.items.flatMap (fun ti =>
    (db.products.filter (fun p => p.id = ti.productId)).flatMap (fun p =>
      (db.brands.filter (fun b => b.id = p.brandId)).flatMap (fun b =>
        (db.interactions.filter (fun si =>
            si.interactionId = ti.interactionId ∧ today - 30 ≤ si.date)).flatMap (fun si =>
          (db.stores.filter (fun s => s.id = si.storeId)).map (fun s =>
            ⟨ti, p, b, si, s⟩)))))

/-- A row of the `brand_metrics` CTE (the columns the claims use). -/
structure BrandMetric where
  brandName : String
  brandCategory : String
  revenue : ℚ
deriving DecidableEq

/-- `brand_metrics`: group the joined rows by `(b.name, b.category)` and
sum `ti.quantity * p.unit_price` per group. -/
def brand_metrics (db : DB) (today : ℤ) : List BrandMetric :=
  (((brandJoined db today).map (fun r => (r.brand.name, r.brand.category))).dedup).map
    (fun k =>
      { brandName := k.1
        brandCategory := k.2
        revenue := (((brandJoined db today).filter
            (fun r => r.brand.name = k.1 ∧ r.brand.category = k.2)).map
          (fun r => r.item.quantity * r.product.unitPrice)).sum })

/-- `category_totals.category_total_revenue`: the summed revenue of the
`brand_metrics` groups of one category. -/
def category_total_revenue (db : DB) (today : ℤ) (cat : String) : ℚ :=
  (((brand_metrics db today).filter (fun m => m.brandCategory = cat)).map
    BrandMetric.revenue).sum

/-- A row of `brand_competition_dashboard` (the columns the claims use);
`categoryMarketSharePercent` is `Except.error` when the unguarded
division `bm.revenue / ct.category_total_revenue` divides by zero. -/
structure BrandCompRow where
  brandName : String
  brandCategory : String
  revenue : ℚ
  categoryMarketSharePercent : Except String ℚ

/-- The `brand_competition_dashboard` view rows (row order of the
grouping; the source's `ORDER BY` only permutes rows). -/
def brand_competition_dashboard (db : DB) (today : ℤ) : List BrandCompRow :=
  (brand_metrics db today).map (fun m =>
    { brandName := m.brandName
      brandCategory := m.brandCategory
      revenue := m.revenue
      categoryMarketSharePercent :=
        if category_total_revenue db today m.brandCategory = 0 then
          Except.error "division by zero"
        else Except.ok (round2 (m.revenue / category_total_revenue db today m.brandCategory * 100)) })

/-! ## `regional_performance` materialized view (003, lines 664-712)

`region_metrics` joins `sales_interactions JOIN stores LEFT JOIN
transaction_items LEFT JOIN products LEFT JOIN brands` over the trailing
90 days and groups by region.  `tbwa_market_share_percent =
ROUND((alaska+oishi+peerless+del_monte) / NULLIF(total_revenue, 0) * 100,
2)`: through `NULLIF`, a zero total yields `NULL` (`none`), not 0. -/

/-- One row of the `region_metrics` join: the interaction and store, and
the `LEFT JOIN`ed item/product/brand part (absent sides are `none`). -/
structure RegionJoinRow where
  interaction : Interaction
  store : Store
  itemInfo : Option (Item × Option (Product × Option Brand))
deriving DecidableEq

/-- The brand `LEFT JOIN`: all matching brands, or a single `none` row. -/
def regionWithBrand (db : DB) (p : Product) : List (Option Brand) :=
  if (db.brands.filter (fun b => b.id = p.brandId)).isEmpty then [none]
  else (db.brands.filter (fun b => b.id = p.brandId)).map some

/-- The product `LEFT JOIN` below an item row. -/
def regionWithProduct (db : DB) (ti : Item) : List (Option (Product × Option Brand)) :=
  if (db.products.filter (fun p => p.id = ti.productId)).isEmpty then [none]
  else (db.products.filter (fun p => p.id = ti.productId)).flatMap (fun p =>
    (regionWithBrand db p).map (fun ob => some (p, ob)))

/-- The item `LEFT JOIN` below an interaction row. -/
def regionWithItems (db : DB) (si : Interaction) :
    List (Option (Item × Option (Product × Option Brand))) :=
  if (db.items.filter (fun ti => ti.interactionId = si.interactionId)).isEmpty then [none]
  else (db.items.filter (fun ti => ti.interactionId = si.interactionId)).flatMap (fun ti =>
    (regionWithProduct db ti).map (fun x => some (ti, x)))

/-- The 90-day windowed `region_metrics` join. -/
def regionJoined (db : DB) (today : ℤ) : List RegionJoinRow :=
  (db.interactions.filter (fun si => today - 90 ≤ si.date)).flatMap (fun si =>
    (db.stores.filter (fun s => s.id = si.storeId)).flatMap (fun s =>
      (regionWithItems db si).map (fun x => ⟨si, s, x⟩)))

/-- `CASE WHEN b.name = n THEN ti.quantity * p.unit_price ELSE 0 END`:
`NULL` brands or products from the `LEFT JOIN` fall to the `ELSE 0`. -/
def rowBrandRevenue (n : String) (r : RegionJoinRow) : ℚ :=
  match r.itemInfo with
  | some (ti, some (p, some b)) => if b.name = n then ti.quantity * p.unitPrice else 0
  | _ => 0

/-- A row of `regional_performance` (the columns the claims use);
`tbwaMarketSharePercent` is `none` when `NULLIF(total_revenue, 0)` makes
the share `NULL`. -/
structure RegionRow where
  region : String
  totalRevenue : ℚ
  tbwaTotalRevenue : ℚ
  tbwaMarketSharePercent : Option ℚ
deriving DecidableEq

/-- The summed `CASE` column for one client brand over a region group. -/
def regionBrandRevenue (db : DB) (today : ℤ) (reg n : String) : ℚ :=
  (((regionJoined db today).filter (fun r => r.store.region = reg)).map
    (rowBrandRevenue n)).sum

/-- `SUM(si.total_amount)` over a region group (note: over the fanned-out
`LEFT JOIN` rows, as in the source). -/
def regionTotalRevenue (db : DB) (today : ℤ) (reg : String) : ℚ :=
  (((regionJoined db today).filter (fun r => r.store.region = reg)).map
    (fun r => r.interaction.amount)).sum

/-- The `regional_performance` view rows. -/
def regional_performance (db : DB) (today : ℤ) : List RegionRow :=
  (((regionJoined db today).map (fun r => r.store.region)).dedup).map (fun reg =>
    { region := reg
      totalRevenue := regionTotalRevenue db today reg
      tbwaTotalRevenue :=
        regionBrandRevenue db today reg "Alaska" + regionBrandRevenue db today reg "Oishi" +
          regionBrandRevenue db today reg "Peerless" +
          regionBrandRevenue db today reg "Del Monte"
      tbwaMarketSharePercent :=
        (nullif (regionTotalRevenue db today reg) 0).map (fun d =>
          round2 ((regionBrandRevenue db today reg "Alaska" +
            regionBrandRevenue db today reg "Oishi" +
            regionBrandRevenue db today reg "Peerless" +
            regionBrandRevenue db today reg "Del Monte") / d * 100)) })

/-! ## `product_performance` materialized view (003, lines 578-604)

Joins `transaction_items → products → brands → sales_interactions` over
the trailing 90 days, groups by `(p.id, p.name, b.name, p.category,
p.is_fmcg)`, and computes

```sql
SUM(ti.quantity * p.unit_price) /
  NULLIF(SUM(SUM(ti.quantity * p.unit_price)) OVER (), 0) * 100
  AS market_share_percent
```

— the window function `SUM(...) OVER ()` is the grand total over **all**
result rows (all products of all categories). -/

/-- One joined row of the `product_performance` `FROM` clause. -/
structure PPJoinRow where
  item : Item
  product : Product
  brand : Brand
  interaction : Interaction
deriving DecidableEq

/-- The 90-day windowed join of `product_performance`. -/
def ppJoined (db : DB) (today : ℤ) : List PPJoinRow :=
  db.items.flatMap (fun ti =>
    (db.products.filter (fun p => p.id = ti.productId)).flatMap (fun p =>
      (db.brands.filter (fun b => b.id = p.brandId)).flatMap (fun b =>
        (db.interactions.filter (fun si =>
            si.interactionId = ti.interactionId ∧ today - 90 ≤ si.date)).map (fun si =>
          ⟨ti, p, b, si⟩))))

/-- The `GROUP BY` key of `product_performance`. -/
structure ProductKey where
  productId : ℕ
  productName : String
  brandName : String
  category : String
  isFmcg : Bool
deriving DecidableEq

/-- The grouping key of one joined row. -/
def ppKey (r : PPJoinRow) : ProductKey :=
  ⟨r.product.id, r.product.name, r.brand.name, r.product.category, r.product.isFmcg⟩

/-- The groups of `product_performance` with their `total_revenue`. -/
def ppGroups (db : DB) (today : ℤ) : List (ProductKey × ℚ) :=
  (((ppJoined db today).map ppKey).dedup).map (fun k =>
    (k, (((ppJoined db today).filter (fun r => ppKey r = k)).map
      (fun r => r.item.quantity * r.product.unitPrice)).sum))

/-- `SUM(SUM(ti.quantity * p.unit_price)) OVER ()`: the grand total of
the per-group revenues over all result rows. -/
def ppWindowTotal (db : DB) (today : ℤ) : ℚ :=
  ((ppGroups db today).map Prod.snd).sum

/-- A row of `product_performance` (the columns the claims use). -/
structure ProductPerfRow where
  key : ProductKey
  totalRevenue : ℚ
  marketSharePercent : Option ℚ
deriving DecidableEq

/-- The `product_performance` view rows. -/
def product_performance (db : DB) (today : ℤ) : List ProductPerfRow :=
  (ppGroups db today).map (fun g =>
    { key := g.1
      totalRevenue := g.2
      marketSharePercent :=
        (nullif (ppWindowTotal db today) 0).map (fun d => g.2 / d * 100) })

/-- The revenues listed in the view sum to the window function's grand
total. -/
lemma product_performance_total (db : DB) (today : ℤ) :
    ((product_performance db today).map ProductPerfRow.totalRevenue).sum =
      ppWindowTotal db today := by
  unfold product_performance ppWindowTotal
  rw [List.map_map]
  rfl

/-- Concrete data for C8: two single-item products in different
categories with window revenues 100 (category "X") and 300 (category
"Y"); the global total is 400, so the shares are 25 and 75 — a
per-category denominator would have given 100 for each. -/
def db8 : DB :=
  { stores := [⟨1, "R", "S"⟩]
    brands := [⟨1, "BA", "X"⟩, ⟨2, "BB", "Y"⟩]
    products := [⟨1, "PX", 1, "X", 100, false⟩, ⟨2, "PY", 2, "Y", 300, false⟩]
    items := [⟨1, 1, 1⟩, ⟨1, 2, 1⟩]
    interactions := [⟨1, 1, none, 0, 12, 400, false, false⟩] }

/-- C8: every `product_performance` row's `market_share_percent` is its
revenue divided by the grand total over ALL rows of the view times 100
(global, not per-category), whenever that total is non-zero; on `db8`
(two products in different categories) the shares are 25% and 75%,
not the 100% a per-category denominator would give. -/
theorem product_market_share_global :
    (∀ (db : DB) (today : ℤ) (r : ProductPerfRow),
      r ∈ product_performance db today →
      ((product_performance db today).map ProductPerfRow.totalRevenue).sum ≠ 0 →
      r.marketSharePercent = some (r.totalRevenue /
        ((product_performance db today).map ProductPerfRow.totalRevenue).sum * 100)) ∧
    product_performance db8 0 =
      [⟨⟨1, "PX", "BA", "X", false⟩, 100, some 25⟩,
       ⟨⟨2, "PY", "BB", "Y", false⟩, 300, some 75⟩] := by
  constructor
  · intro db today r hr htot
    rw [product_performance_total] at htot
    rcases List.mem_map.mp hr with ⟨g, -, rfl⟩
    simp only [product_performance_total]
    simp only [nullif, if_neg htot, Option.map_some']
  · have hjoin : ppJoined db8 0 =
        [⟨⟨1, 1, 1⟩, ⟨1, "PX", 1, "X", 100, false⟩, ⟨1, "BA", "X"⟩,
          ⟨1, 1, none, 0, 12, 400, false, false⟩⟩,
         ⟨⟨1, 2, 1⟩, ⟨2, "PY", 2, "Y", 300, false⟩, ⟨2, "BB", "Y"⟩,
          ⟨1, 1, none, 0, 12, 400, false, false⟩⟩] := by
      simp [ppJoined, db8]
    have hgroups : ppGroups db8 0 =
        [(⟨1, "PX", "BA", "X", false⟩, 100), (⟨2, "PY", "BB", "Y", false⟩, 300)] := by
      simp only [ppGroups, hjoin]
      simp [ppKey, List.dedup_cons_of_mem, List.dedup_cons_of_not_mem]
    have htotal : ppWindowTotal db8 0 = 400 := by
      simp only [ppWindowTotal, hgroups]
      norm_num
    simp only [product_performance, hgroups, htotal]
    norm_num [nullif]

/-- Witness for C8's universally quantified part at the first `db8` row. -/
theorem product_market_share_global_witness :
    ProductPerfRow.mk ⟨1, "PX", "BA", "X", false⟩ 100 (some 25) ∈
      product_performance db8 0 ∧
    ((product_performance db8 0).map ProductPerfRow.totalRevenue).sum ≠ 0 ∧
    (ProductPerfRow.mk ⟨1, "PX", "BA", "X", false⟩ 100 (some 25)).marketSharePercent =
      some ((ProductPerfRow.mk ⟨1, "PX", "BA", "X", false⟩ 100 (some 25)).totalRevenue /
        ((product_performance db8 0).map ProductPerfRow.totalRevenue).sum * 100) := by
  have hview := product_market_share_global.2
  have hmem : ProductPerfRow.mk ⟨1, "PX", "BA", "X", false⟩ 100 (some 25) ∈
      product_performance db8 0 := by rw [hview]; simp
  have htot : ((product_performance db8 0).map ProductPerfRow.totalRevenue).sum ≠ 0 := by
    rw [hview]; norm_num
  exact ⟨hmem, htot, product_market_share_global.1 db8 0 _ hmem htot⟩

/-- Concrete data for C7: two brands in category "Snacks" with 30-day
revenues 300 and 700. -/
def db7 : DB :=
  { stores := [⟨1, "R", "S"⟩]
    brands := [⟨1, "BrandA", "Snacks"⟩, ⟨2, "BrandB", "Snacks"⟩]
    products := [⟨1, "PA", 1, "Snacks", 300, false⟩, ⟨2, "PB", 2, "Snacks", 700, false⟩]
    items := [⟨1, 1, 1⟩, ⟨1, 2, 1⟩]
    interactions := [⟨1, 1, none, 0, 12, 1000, false, false⟩] }

/-- C7: for a category with positive total revenue, each brand row's
`category_market_share_percent` is `ROUND(revenue / category_total * 100,
2)`; the rounded shares of the category's brands sum to 100 up to half a
cent per brand; and on `db7` the 300/700 brands get exactly 30 and 70. -/
theorem brand_share_normalization :
    (∀ (db : DB) (today : ℤ) (r : BrandCompRow),
      r ∈ brand_competition_dashboard db today →
      0 < category_total_revenue db today r.brandCategory →
      r.categoryMarketSharePercent = Except.ok
        (round2 (r.revenue / category_total_revenue db today r.brandCategory * 100))) ∧
    (∀ (db : DB) (today : ℤ) (cat : String),
      0 < category_total_revenue db today cat →
      |(((brand_metrics db today).filter (fun m => m.brandCategory = cat)).map
          (fun m => round2 (m.revenue / category_total_revenue db today cat * 100))).sum
        - 100| ≤
        ((((brand_metrics db today).filter (fun m => m.brandCategory = cat)).length : ℚ)
          / 200)) ∧
    brand_competition_dashboard db7 0 =
      [⟨"BrandA", "Snacks", 300, Except.ok 30⟩,
       ⟨"BrandB", "Snacks", 700, Except.ok 70⟩] := by
  refine ⟨?_, ?_, ?_⟩
  · intro db today r hr h
    rcases List.mem_map.mp hr with ⟨m, -, rfl⟩
    dsimp only at h ⊢
    rw [if_neg h.ne']
  · intro db today cat h
    have hT : category_total_revenue db today cat =
        (((brand_metrics db today).filter (fun m => m.brandCategory = cat)).map
          BrandMetric.revenue).sum := rfl
    have key := abs_sum_round2_sub_le
      (((brand_metrics db today).filter (fun m => m.brandCategory = cat)).map
        (fun m => m.revenue / category_total_revenue db today cat * 100))
    rw [List.map_map, List.length_map] at key
    have hsum : ((((brand_metrics db today).filter (fun m => m.brandCategory = cat)).map
        (fun m => m.revenue / category_total_revenue db today cat * 100))).sum = 100 := by
      rw [sum_map_div_mul]
      rw [← hT, div_self h.ne']
      norm_num
    rw [hsum] at key
    exact key
  · have hjoin : brandJoined db7 0 =
        [⟨⟨1, 1, 1⟩, ⟨1, "PA", 1, "Snacks", 300, false⟩, ⟨1, "BrandA", "Snacks"⟩,
          ⟨1, 1, none, 0, 12, 1000, false, false⟩, ⟨1, "R", "S"⟩⟩,
         ⟨⟨1, 2, 1⟩, ⟨2, "PB", 2, "Snacks", 700, false⟩, ⟨2, "BrandB", "Snacks"⟩,
          ⟨1, 1, none, 0, 12, 1000, false, false⟩, ⟨1, "R", "S"⟩⟩] := by
      simp [brandJoined, db7]
    have hmetrics : brand_metrics db7 0 =
        [⟨"BrandA", "Snacks", 300⟩, ⟨"BrandB", "Snacks", 700⟩] := by
      simp only [brand_metrics, hjoin]
      simp [List.dedup_cons_of_mem, List.dedup_cons_of_not_mem]
    have htotal : category_total_revenue db7 0 "Snacks" = 1000 := by
      simp only [category_total_revenue, hmetrics]
      norm_num
    simp only [brand_competition_dashboard, hmetrics]
    simp only [List.map_cons, List.map_nil]
    rw [htotal]
    norm_num [round2]

/-- Witness for C7's quantified parts at `db7` / category "Snacks". -/
theorem brand_share_normalization_witness :
    BrandCompRow.mk "BrandA" "Snacks" 300 (Except.ok 30) ∈
      brand_competition_dashboard db7 0 ∧
    0 < category_total_revenue db7 0 "Snacks" ∧
    (BrandCompRow.mk "BrandA" "Snacks" 300 (Except.ok 30)).categoryMarketSharePercent =
      Except.ok (round2 ((BrandCompRow.mk "BrandA" "Snacks" 300
        (Except.ok 30)).revenue / category_total_revenue db7 0 "Snacks" * 100)) ∧
    |(((brand_metrics db7 0).filter (fun m => m.brandCategory = "Snacks")).map
        (fun m => round2 (m.revenue / category_total_revenue db7 0 "Snacks" * 100))).sum
      - 100| ≤
      ((((brand_metrics db7 0).filter (fun m => m.brandCategory = "Snacks")).length : ℚ)
        / 200) := by
  have hview := brand_share_normalization.2.2
  have hmem : BrandCompRow.mk "BrandA" "Snacks" 300 (Except.ok 30) ∈
      brand_competition_dashboard db7 0 := by rw [hview]; simp
  have hpos : 0 < category_total_revenue db7 0 "Snacks" := by
    have hjoin : brandJoined db7 0 =
        [⟨⟨1, 1, 1⟩, ⟨1, "PA", 1, "Snacks", 300, false⟩, ⟨1, "BrandA", "Snacks"⟩,
          ⟨1, 1, none, 0, 12, 1000, false, false⟩, ⟨1, "R", "S"⟩⟩,
         ⟨⟨1, 2, 1⟩, ⟨2, "PB", 2, "Snacks", 700, false⟩, ⟨2, "BrandB", "Snacks"⟩,
          ⟨1, 1, none, 0, 12, 1000, false, false⟩, ⟨1, "R", "S"⟩⟩] := by
      simp [brandJoined, db7]
    have hmetrics : brand_metrics db7 0 =
        [⟨"BrandA", "Snacks", 300⟩, ⟨"BrandB", "Snacks", 700⟩] := by
      simp only [brand_metrics, hjoin]
      simp [List.dedup_cons_of_mem, List.dedup_cons_of_not_mem]
    simp only [category_total_revenue, hmetrics]
    norm_num
  exact ⟨hmem, hpos, brand_share_normalization.1 db7 0 _ hmem hpos,
         brand_share_normalization.2.1 db7 0 "Snacks" hpos⟩

/-- Concrete data for C1: one region with a single zero-total transaction
holding one zero-quantity line item, so both the region's 90-day total
revenue and the "Snacks" category's 30-day total revenue are 0. -/
def dbC1 : DB :=
  { stores := [⟨1, "R", "S"⟩]
    brands := [⟨1, "BrandA", "Snacks"⟩]
    products := [⟨1, "P1", 1, "Snacks", 5, false⟩]
    items := [⟨1, 1, 0⟩]
    interactions := [⟨1, 1, none, 0, 12, 0, false, false⟩] }

/-- Evaluation of `regional_performance` on `dbC1`. -/
lemma regional_performance_dbC1 :
    regional_performance dbC1 0 = [⟨"R", 0, 0, none⟩] := by
  have hjoin : regionJoined dbC1 0 =
      [⟨⟨1, 1, none, 0, 12, 0, false, false⟩, ⟨1, "R", "S"⟩,
        some (⟨1, 1, 0⟩, some (⟨1, "P1", 1, "Snacks", 5, false⟩,
          some ⟨1, "BrandA", "Snacks"⟩))⟩] := by
    simp [regionJoined, regionWithItems, regionWithProduct, regionWithBrand, dbC1]
  simp only [regional_performance, regionTotalRevenue, regionBrandRevenue, hjoin]
  simp [rowBrandRevenue, nullif]

/-- Evaluation of `brand_competition_dashboard` on `dbC1`. -/
lemma brand_dashboard_dbC1 :
    brand_competition_dashboard dbC1 0 =
      [⟨"BrandA", "Snacks", 0, Except.error "division by zero"⟩] := by
  have hjoin : brandJoined dbC1 0 =
      [⟨⟨1, 1, 0⟩, ⟨1, "P1", 1, "Snacks", 5, false⟩, ⟨1, "BrandA", "Snacks"⟩,
        ⟨1, 1, none, 0, 12, 0, false, false⟩, ⟨1, "R", "S"⟩⟩] := by
    simp [brandJoined, dbC1]
  have hmetrics : brand_metrics dbC1 0 = [⟨"BrandA", "Snacks", 0⟩] := by
    simp only [brand_metrics, hjoin]
    simp [List.dedup_cons_of_mem, List.dedup_cons_of_not_mem]
  have htotal : category_total_revenue dbC1 0 "Snacks" = 0 := by
    simp only [category_total_revenue, hmetrics]
    norm_num
  simp only [brand_competition_dashboard, hmetrics, List.map_cons, List.map_nil]
  rw [htotal]
  simp

/-- C1, counterexample: on `dbC1`, the region with zero total revenue
gets `tbwa_market_share_percent = NULL` (the `NULLIF` makes the whole
expression `NULL`, not 0), and the zero-revenue category's brand share
raises a division-by-zero error (there is no guard at all) — neither view
yields the claimed 0. -/
theorem zero_revenue_share_counterexample :
    regional_performance dbC1 0 = [⟨"R", 0, 0, none⟩] ∧
    brand_competition_dashboard dbC1 0 =
      [⟨"BrandA", "Snacks", 0, Except.error "division by zero"⟩] :=
  ⟨regional_performance_dbC1, brand_dashboard_dbC1⟩

/-- C1, amended: a region whose 90-day total revenue is zero gets
`tbwa_market_share_percent = NULL` (the `NULLIF(total_revenue, 0)` guard
turns the division into `NULL`, which propagates through `ROUND`), and in
the brand competition view a category whose 30-day total revenue is zero
makes the unguarded division raise a division-by-zero error — in neither
view is the share 0. -/
theorem zero_revenue_share_amended :
    (∀ (db : DB) (today : ℤ) (r : RegionRow),
      r ∈ regional_performance db today → r.totalRevenue = 0 →
      r.tbwaMarketSharePercent = none) ∧
    (∀ (db : DB) (today : ℤ) (r : BrandCompRow),
      r ∈ brand_competition_dashboard db today →
      category_total_revenue db today r.brandCategory = 0 →
      r.categoryMarketSharePercent = Except.error "division by zero") := by
  constructor
  · intro db today r hr h0
    rcases List.mem_map.mp hr with ⟨reg, -, rfl⟩
    dsimp only at h0 ⊢
    rw [h0]
    simp [nullif]
  · intro db today r hr h0
    rcases List.mem_map.mp hr with ⟨m, -, rfl⟩
    dsimp only at h0 ⊢
    rw [if_pos h0]

/-- Witness for C1's amended theorem at the `dbC1` rows. -/
theorem zero_revenue_share_amended_witness :
    RegionRow.mk "R" 0 0 none ∈ regional_performance dbC1 0 ∧
    (RegionRow.mk "R" 0 0 none).tbwaMarketSharePercent = none ∧
    BrandCompRow.mk "BrandA" "Snacks" 0 (Except.error "division by zero") ∈
      brand_competition_dashboard dbC1 0 ∧
    (BrandCompRow.mk "BrandA" "Snacks" 0
      (Except.error "division by zero")).categoryMarketSharePercent =
      Except.error "division by zero" := by
  have hmem1 : RegionRow.mk "R" 0 0 none ∈ regional_performance dbC1 0 := by
    rw [regional_performance_dbC1]
    simp
  have hmem2 : BrandCompRow.mk "BrandA" "Snacks" 0 (Except.error "division by zero") ∈
      brand_competition_dashboard dbC1 0 := by
    rw [brand_dashboard_dbC1]
    simp
  have htot : category_total_revenue dbC1 0
      (BrandCompRow.mk "BrandA" "Snacks" 0
        (Except.error "division by zero")).brandCategory = 0 := by
    have hjoin : brandJoined dbC1 0 =
        [⟨⟨1, 1, 0⟩, ⟨1, "P1", 1, "Snacks", 5, false⟩, ⟨1, "BrandA", "Snacks"⟩,
          ⟨1, 1, none, 0, 12, 0, false, false⟩, ⟨1, "R", "S"⟩⟩] := by
      simp [brandJoined, dbC1]
    have hmetrics : brand_metrics dbC1 0 = [⟨"BrandA", "Snacks", 0⟩] := by
      simp only [brand_metrics, hjoin]
      simp [List.dedup_cons_of_mem, List.dedup_cons_of_not_mem]
    simp only [category_total_revenue, hmetrics]
    norm_num
  exact ⟨hmem1, zero_revenue_share_amended.1 dbC1 0 _ hmem1 rfl, hmem2,
         zero_revenue_share_amended.2 dbC1 0 _ hmem2 htot⟩

end Scout
